import Mathlib

/-!
Verification development for the address-enrichment core of
`location_curate.py` (repository `sribharathan01/auto001`).

The Python source is dynamically typed; cell values read from a spreadsheet
row may be numbers, strings or missing.  We embed such a cell value as
`PyVal` and Python truthiness (`if not lat: ...`) as `PyVal.truthy`.
Coordinates are embedded as exact rationals (the source performs no
arithmetic on them, it only passes them around and tests truthiness).

The provider adapter functions (`geocode_google`, `reverse_google`, ... —
one pair per provider) perform network I/O; in the embedding they are
oracles passed as parameters (`ForwardAdapter`, `ReverseAdapter`), so every
theorem quantifies over all possible adapter behaviours, including failure
(`⟨vnone, vnone, false⟩` resp. all-`none` results, which is what every
adapter in the source returns on any exception or empty response).
-/

/-- A Python value held in a coordinate cell: `None`/missing, a number, or a
string.  (`vnum 0` models both `0` and `0.0`.) -/
inductive PyVal where
  | vnone : PyVal
  | vnum (q : ℚ) : PyVal
  | vstr (s : String) : PyVal
deriving DecidableEq, Repr

/-- Python truthiness of a `PyVal`: `None`, `0`/`0.0` and `""` are falsy. -/
def PyVal.truthy : PyVal → Bool
  | PyVal.vnone => false
  | PyVal.vnum q => q != 0
  | PyVal.vstr s => s != ""

/-- Python truthiness of an optional string (used for the reverse-geocode
components `r_city`/`r_state`): `None` and `""` are falsy. -/
def optTruthy : Option String → Bool
  | Option.none => false
  | some s => s != ""

/-- Python `str(...)` applied to an optional string: `str(None) = "None"`. -/
def py_str : Option String → String
  | Option.none => "None"
  | some s => s

/-- Python `str.strip()`: the string with leading and trailing whitespace
removed. -/
def pyStrip (s : String) : String :=
  ⟨((s.data.dropWhile Char.isWhitespace).reverse.dropWhile Char.isWhitespace).reverse⟩

/-- The validator `is_valid_indian_pincode` (source lines 21–22):
`bool(re.match(r'^[1-9][0-9]{5}$', str(pin).strip()))` — true iff the
trimmed value is exactly six digits, the first in 1–9.  A total function
with no side effects (it cannot raise). -/
def is_valid_indian_pincode (pin : String) : Bool :=
  match (pyStrip pin).data with
  | [c0, c1, c2, c3, c4, c5] =>
      (decide ('1' ≤ c0) && decide (c0 ≤ '9')) &&
      (c1.isDigit && c2.isDigit && c3.isDigit && c4.isDigit && c5.isDigit)
  | _ => false

/-- One entry of `DEFAULT_CITY_DATA` (source lines 10–17). -/
structure CityRef where
  state : String
  pincode : String
  latitude : ℚ
  longitude : ℚ
deriving DecidableEq, Repr

/-- The static fallback table `DEFAULT_CITY_DATA` (source lines 10–17),
as a lookup function (the source only tests membership and looks up).
The decimal coordinate literals of the source are written as exact
rationals via `mkRat` (e.g. `28.6139` is `mkRat 286139 10000`) so that
they evaluate by kernel reduction. -/
def DEFAULT_CITY_DATA : String → Option CityRef
  | "Delhi" => some ⟨"Delhi", "110001", mkRat 286139 10000, mkRat 772090 10000⟩
  | "Mumbai" => some ⟨"Maharashtra", "400001", mkRat 189388 10000, mkRat 728354 10000⟩
  | "Bengaluru" => some ⟨"Karnataka", "560001", mkRat 129719 10000, mkRat 775937 10000⟩
  | "Chennai" => some ⟨"Tamil Nadu", "600001", mkRat 130827 10000, mkRat 802707 10000⟩
  | "Hyderabad" => some ⟨"Telangana", "500001", mkRat 173850 10000, mkRat 784867 10000⟩
  | "Kolkata" => some ⟨"West Bengal", "700001", mkRat 225726 10000, mkRat 883639 10000⟩
  | _ => Option.none

/-- The set `VALID_CITIES` (source line 19): the keys of `DEFAULT_CITY_DATA`. -/
def VALID_CITIES : List String :=
  ["Delhi", "Mumbai", "Bengaluru", "Chennai", "Hyderabad", "Kolkata"]

/-- The set `VALID_STATES` (source line 18): the states of `DEFAULT_CITY_DATA`
(the source builds a set; only membership is used). -/
def VALID_STATES : List String :=
  ["Delhi", "Maharashtra", "Karnataka", "Tamil Nadu", "Telangana", "West Bengal"]

/-- Result of `apply_fallbacks`: the (possibly updated) five fields plus the
notes emitted by the step. -/
structure FallbackOut where
  city : String
  state : String
  pin : String
  lat : PyVal
  lon : PyVal
  notes : List String
deriving DecidableEq, Repr

/-- The static-default step `apply_fallbacks` (source lines 24–40).  When the city is a key of
`DEFAULT_CITY_DATA`: the state is filled only when falsy (empty), the pin
when it fails `is_valid_indian_pincode`, the latitude/longitude when falsy;
each fill appends its note in source order. -/
def apply_fallbacks (city state pin : String) (lat lon : PyVal) : FallbackOut :=
  match DEFAULT_CITY_DATA city with
  | Option.none => ⟨city, state, pin, lat, lon, []⟩
  | some ref =>
      let fillState := state == ""
      let fillPin := !is_valid_indian_pincode pin
      let fillLat := !lat.truthy
      let fillLon := !lon.truthy
      ⟨city,
       (if fillState then ref.state else state),
       (if fillPin then ref.pincode else pin),
       (if fillLat then PyVal.vnum ref.latitude else lat),
       (if fillLon then PyVal.vnum ref.longitude else lon),
       (if fillState then ["Default State"] else []) ++
       (if fillPin then ["Default PIN"] else []) ++
       (if fillLat then ["Default Lat"] else []) ++
       (if fillLon then ["Default Lon"] else [])⟩

/-- The five providers offered by the UI select box (source line 229). -/
inductive Provider where
  | google | here | mapbox | ola | opencage
deriving DecidableEq, Repr

/-- The provider dispatch of `enrich` (the `elif` chains at source lines
176–185 and 194–203): which provider a provider-name string selects.
Any other string selects no branch, leaving `ok` / `r_city` unbound. -/
def providerOf : String → Option Provider
  | "Google Maps" => some Provider.google
  | "HERE Maps" => some Provider.here
  | "Mapbox" => some Provider.mapbox
  | "OLA Maps" => some Provider.ola
  | "OpenCage" => some Provider.opencage
  | _ => Option.none

/-- Result of a forward-geocode adapter call (`geocode_*`): the source
implementations return `(lat, lng, True)` on success and
`(None, None, False)` on any exception or empty response. -/
structure ForwardResult where
  lat : PyVal
  lon : PyVal
  ok : Bool
deriving DecidableEq, Repr

/-- Result of a reverse-geocode adapter call (`reverse_*`): each component
may be absent; on failure all three are `None`. -/
structure ReverseResult where
  city : Option String
  state : Option String
  pin : Option String
deriving DecidableEq, Repr

/-- Oracle for the forward-geocode call: provider, address, key. -/
def ForwardAdapter : Type := Provider → String → String → ForwardResult

/-- Oracle for the reverse-geocode call: provider, latitude, longitude, key. -/
def ReverseAdapter : Type := Provider → PyVal → PyVal → String → ReverseResult

/-- One input row as `enrich` reads it: the address cell (already a string
after `str(...)`), the `City`/`State`/`Postal Code` cells as strings, and
the raw `Latitude`/`Longitude` cells. -/
structure Row where
  address : String
  city : String
  state : String
  postal : String
  lat : PyVal
  lon : PyVal
deriving DecidableEq, Repr

/-- The dictionary returned by `enrich` (source lines 218–223), plus:
`notesList` is the `notes` list before the `", ".join` (kept so that
note-counting properties can be stated), and `calledForward` /
`calledReverse` record whether the forward-geocode (line 175) resp.
reverse-geocode (line 193) call site was reached — pure instrumentation
of the two provider-call branches. -/
structure EnrichOut where
  Latitude : PyVal
  Longitude : PyVal
  City : String
  State : String
  PostalCode : String
  Used_Fallback : Bool
  notesList : List String
  Correction_Notes : String
  Status : String
  calledForward : Bool
  calledReverse : Bool
deriving DecidableEq, Repr

/-- The adoption block of the reverse-fill step (source lines 205–213):
city/state are adopted when the input failed its check and the reverse
value is truthy (no re-validation against the known sets); the pin is
adopted when the input pin was invalid and the reverse pin itself passes
`is_valid_indian_pincode` (applied to `str(r_pin)`). -/
def reverse_fill (city_ok state_ok pin_ok : Bool) (city state pin : String)
    (r : ReverseResult) : String × String × String × List String :=
  let adoptCity := !city_ok && optTruthy r.city
  let adoptState := !state_ok && optTruthy r.state
  let adoptPin := !pin_ok && is_valid_indian_pincode (py_str r.pin)
  ((if adoptCity then r.city.getD "" else city),
   (if adoptState then r.state.getD "" else state),
   (if adoptPin then r.pin.getD "" else pin),
   (if adoptCity then ["City from reverse"] else []) ++
   (if adoptState then ["State from reverse"] else []) ++
   (if adoptPin then ["PIN from reverse"] else []))

/-- Construction of the output dictionary (source lines 218–223).
`Status` is `"Success"` iff `all([lat, lon, city, state, pin])`, i.e. iff
all five final values are truthy; otherwise it is `"Failed"`. -/
def finalize (fb : FallbackOut) (used_fallback : Bool) (notes : List String)
    (called_fwd called_rev : Bool) : EnrichOut :=
  { Latitude := fb.lat, Longitude := fb.lon, City := fb.city, State := fb.state,
    PostalCode := fb.pin, Used_Fallback := used_fallback,
    notesList := notes,
    Correction_Notes := String.intercalate ", " notes,
    Status := if fb.lat.truthy && fb.lon.truthy &&
                 fb.city != "" && fb.state != "" && fb.pin != ""
              then "Success" else "Failed",
    calledForward := called_fwd, calledReverse := called_rev }

/-- The field resolver `enrich` (source lines 166–223) for a recognized provider `p`.
Step order as in the source: strip the five cells; if the coordinate pair
is not fully truthy, reassign BOTH coordinates from the forward-geocode
result (regardless of `ok`); compute `city_ok`/`state_ok`/`pin_ok` on the
input strings; if the (possibly new) coordinates are truthy and some check
failed, run the reverse-fill block; finally `apply_fallbacks` and build the
output dictionary. -/
def enrichP (row : Row) (p : Provider) (fwd : ForwardAdapter)
    (rev : ReverseAdapter) (key : String) : EnrichOut :=
  let address := pyStrip row.address
  let city0 := pyStrip row.city
  let state0 := pyStrip row.state
  let pin0 := pyStrip row.postal
  let lat0 := row.lat
  let lon0 := row.lon
  let geo : PyVal × PyVal × Bool × List String × Bool :=
    if lat0.truthy && lon0.truthy then
      (lat0, lon0, false, [], false)
    else
      let r := fwd p address key
      (r.lat, r.lon, r.ok, (if r.ok then ["Lat/Lon enriched"] else []), true)
  let (lat1, lon1, used_fallback, notes1, called_fwd) := geo
  let city_ok := VALID_CITIES.contains city0
  let state_ok := VALID_STATES.contains state0
  let pin_ok := is_valid_indian_pincode pin0
  let rv : String × String × String × List String × Bool :=
    if lat1.truthy && lon1.truthy && !(city_ok && state_ok && pin_ok) then
      let r := rev p lat1 lon1 key
      let (c, s, pn, ns) := reverse_fill city_ok state_ok pin_ok city0 state0 pin0 r
      (c, s, pn, ns, true)
    else
      (city0, state0, pin0, [], false)
  let (city2, state2, pin2, notes2, called_rev) := rv
  let fb := apply_fallbacks city2 state2 pin2 lat1 lon1
  finalize fb used_fallback (notes1 ++ notes2 ++ fb.notes) called_fwd called_rev

/-- The field resolver `enrich` (source lines 166–223) as called with an arbitrary provider
name: with a recognized name it returns `enrichP`'s result; with any other
name the Python function raises `UnboundLocalError` the moment a provider
branch is needed (`if ok:` at line 186 with `ok` never assigned, or
`r_city` at line 205), which the embedding reports as `Except.error`. -/
def enrichE (row : Row) (providerName : String) (fwd : ForwardAdapter)
    (rev : ReverseAdapter) (key : String) : Except String EnrichOut :=
  match providerOf providerName with
  | some p => Except.ok (enrichP row p fwd rev key)
  | Option.none =>
      let city0 := pyStrip row.city
      let state0 := pyStrip row.state
      let pin0 := pyStrip row.postal
      if !(row.lat.truthy && row.lon.truthy) then
        Except.error "UnboundLocalError: local variable ok referenced before assignment"
      else if !(VALID_CITIES.contains city0 && VALID_STATES.contains state0 &&
                is_valid_indian_pincode pin0) then
        Except.error "UnboundLocalError: local variable r_city referenced before assignment"
      else
        let fb := apply_fallbacks city0 state0 pin0 row.lat row.lon
        Except.ok (finalize fb false fb.notes false false)

/-- The batch loop (source lines 242–249): `results = [None] * len(df)`;
each future's result is written at the submitting row's index
(`results[idx] = future.result()`), iterating futures in completion order
(`order`).  `future.result()` re-raises any exception from `enrich`; there
is no try/except in the loop, so an exception aborts the batch (modelled by
`Except.error` short-circuiting the fold). -/
def runBatch (rows : List Row) (providerName : String) (fwd : ForwardAdapter)
    (rev : ReverseAdapter) (key : String) (order : List Nat) :
    Except String (List (Option EnrichOut)) :=
  order.foldlM
    (fun (results : List (Option EnrichOut)) idx =>
      match rows[idx]? with
      | Option.none => Except.ok results
      | some row =>
          (enrichE row providerName fwd rev key).map
            (fun out => results.set idx (some out)))
    (List.replicate rows.length Option.none)

/-- An always-failing forward adapter: what every `geocode_*` function in
the source returns on any exception or empty response. -/
def failFwd : ForwardAdapter := fun _ _ _ => ⟨PyVal.vnone, PyVal.vnone, false⟩

/-- An always-failing reverse adapter: what every `reverse_*` function in
the source returns on any exception. -/
def failRev : ReverseAdapter := fun _ _ _ _ => ⟨Option.none, Option.none, Option.none⟩

/-- A stub forward adapter that always succeeds with the coordinates
`(12.97, 77.59)`. -/
def okFwd : ForwardAdapter :=
  fun _ _ _ => ⟨PyVal.vnum (mkRat 1297 100), PyVal.vnum (mkRat 7759 100), true⟩

/-- One write of the batch loop (`results[idx] = future.result()` for a
future that did not raise): used to restate the loop as a pure fold. -/
def batchWrite (p : Provider) (fwd : ForwardAdapter) (rev : ReverseAdapter)
    (key : String) (rows : List Row)
    (results : List (Option EnrichOut)) (idx : Nat) : List (Option EnrichOut) :=
  match rows[idx]? with
  | Option.none => results
  | some row => results.set idx (some (enrichP row p fwd rev key))

/-- Specification formula for the correction notes (the amended claim C8):
exactly one tag per APPLIED resolution action, in the order the steps run —
the single tag `"Lat/Lon enriched"` when the coordinate pair was reassigned
from a successful forward geocode (one note covering both coordinate
fields), one tag per reverse-fill adoption, and one tag per static-default
fill.  Each action condition is spelled out over the inputs; the theorem
`notes_shape_per_action` proves the resolver's notes equal this formula. -/
def expected_notes (row : Row) (p : Provider) (fwd : ForwardAdapter)
    (rev : ReverseAdapter) (key : String) : List String :=
  let city0 := pyStrip row.city
  let state0 := pyStrip row.state
  let pin0 := pyStrip row.postal
  let fr := fwd p (pyStrip row.address) key
  let geoRan := !(row.lat.truthy && row.lon.truthy)
  let used := geoRan && fr.ok
  let lat1 := if geoRan then fr.lat else row.lat
  let lon1 := if geoRan then fr.lon else row.lon
  let city_ok := VALID_CITIES.contains city0
  let state_ok := VALID_STATES.contains state0
  let pin_ok := is_valid_indian_pincode pin0
  let revRan := lat1.truthy && lon1.truthy && !(city_ok && state_ok && pin_ok)
  let rr := rev p lat1 lon1 key
  let adoptCity := revRan && (!city_ok && optTruthy rr.city)
  let adoptState := revRan && (!state_ok && optTruthy rr.state)
  let adoptPin := revRan && (!pin_ok && is_valid_indian_pincode (py_str rr.pin))
  let city2 := if adoptCity then rr.city.getD "" else city0
  let state2 := if adoptState then rr.state.getD "" else state0
  let pin2 := if adoptPin then rr.pin.getD "" else pin0
  let tableHit := (DEFAULT_CITY_DATA city2).isSome
  let fillState := tableHit && state2 == ""
  let fillPin := tableHit && !is_valid_indian_pincode pin2
  let fillLat := tableHit && !lat1.truthy
  let fillLon := tableHit && !lon1.truthy
  (if used then ["Lat/Lon enriched"] else []) ++
  ((if adoptCity then ["City from reverse"] else []) ++
   (if adoptState then ["State from reverse"] else []) ++
   (if adoptPin then ["PIN from reverse"] else [])) ++
  ((if fillState then ["Default State"] else []) ++
   (if fillPin then ["Default PIN"] else []) ++
   (if fillLat then ["Default Lat"] else []) ++
   (if fillLon then ["Default Lon"] else []))

example :
    enrichP ⟨"1 MG Road", "", "", "", PyVal.vnone, PyVal.vnone⟩ Provider.google
      (fun _ _ _ => ⟨PyVal.vnum (mkRat 1297 100), PyVal.vnum (mkRat 7759 100), true⟩)
      (fun _ _ _ _ => ⟨some "Bengaluru", some "Karnataka", some "560001"⟩) "k"
    = { Latitude := PyVal.vnum (mkRat 1297 100), Longitude := PyVal.vnum (mkRat 7759 100),
        City := "Bengaluru", State := "Karnataka", PostalCode := "560001",
        Used_Fallback := true,
        notesList := ["Lat/Lon enriched", "City from reverse",
                      "State from reverse", "PIN from reverse"],
        Correction_Notes := "Lat/Lon enriched, City from reverse, State from reverse, PIN from reverse",
        Status := "Success", calledForward := true, calledReverse := true } := by
  decide

/-! ## Helper lemmas -/

lemma char_isDigit_of_one_nine {c : Char} (h1 : '1' ≤ c) (h9 : c ≤ '9') :
    c.isDigit = true := by
  have h0 : '0' ≤ c := le_trans (by decide) h1
  simp only [Char.isDigit, ge_iff_le, Bool.and_eq_true, decide_eq_true_eq]
  rw [Char.le_def] at h0 h9
  exact ⟨h0, h9⟩

lemma enrichE_recognized {providerName : String} {p : Provider}
    (row : Row) (fwd : ForwardAdapter) (rev : ReverseAdapter) (key : String)
    (hp : providerOf providerName = some p) :
    enrichE row providerName fwd rev key = Except.ok (enrichP row p fwd rev key) := by
  unfold enrichE
  rw [hp]

lemma apply_fallbacks_city (city state pin : String) (lat lon : PyVal) :
    (apply_fallbacks city state pin lat lon).city = city := by
  unfold apply_fallbacks
  cases DEFAULT_CITY_DATA city <;> simp

lemma apply_fallbacks_state_of_ne (city state pin : String) (lat lon : PyVal)
    (h : state ≠ "") :
    (apply_fallbacks city state pin lat lon).state = state := by
  unfold apply_fallbacks
  cases DEFAULT_CITY_DATA city <;> simp [h]

lemma apply_fallbacks_pin_of_valid (city state pin : String) (lat lon : PyVal)
    (h : is_valid_indian_pincode pin = true) :
    (apply_fallbacks city state pin lat lon).pin = pin := by
  unfold apply_fallbacks
  cases DEFAULT_CITY_DATA city <;> simp [h]

lemma apply_fallbacks_lat_of_truthy (city state pin : String) (lat lon : PyVal)
    (h : lat.truthy = true) :
    (apply_fallbacks city state pin lat lon).lat = lat := by
  unfold apply_fallbacks
  cases DEFAULT_CITY_DATA city <;> simp [h]

lemma apply_fallbacks_lon_of_truthy (city state pin : String) (lat lon : PyVal)
    (h : lon.truthy = true) :
    (apply_fallbacks city state pin lat lon).lon = lon := by
  unfold apply_fallbacks
  cases DEFAULT_CITY_DATA city <;> simp [h]

lemma valid_state_ne_empty {s : String} (h : VALID_STATES.contains s = true) :
    s ≠ "" := by
  have hm : s ∈ VALID_STATES := by simpa using h
  simp only [VALID_STATES, List.mem_cons, List.not_mem_nil, or_false] at hm
  rcases hm with h' | h' | h' | h' | h' | h' <;> subst h' <;> decide

lemma valid_city_ne_empty {s : String} (h : VALID_CITIES.contains s = true) :
    s ≠ "" := by
  have hm : s ∈ VALID_CITIES := by simpa using h
  simp only [VALID_CITIES, List.mem_cons, List.not_mem_nil, or_false] at hm
  rcases hm with h' | h' | h' | h' | h' | h' <;> subst h' <;> decide

/-! ## Claim theorems -/

/-- C9.  Postal-code validator correctness: `is_valid_indian_pincode`
returns `true` iff the input, stripped of surrounding whitespace, is
exactly six digits whose first digit is in 1–9.  (The embedding is a total
Lean function, matching the source function, which cannot raise.) -/
theorem pincode_valid_iff (s : String) :
    is_valid_indian_pincode s = true ↔
      ((pyStrip s).data.length = 6 ∧
       (∀ c ∈ (pyStrip s).data, c.isDigit = true) ∧
       (∀ c, (pyStrip s).data.head? = some c → '1' ≤ c ∧ c ≤ '9')) := by
  unfold is_valid_indian_pincode
  rcases hl : (pyStrip s).data with - | ⟨c0, - | ⟨c1, - | ⟨c2, - | ⟨c3, - | ⟨c4, - | ⟨c5, - | ⟨c6, rest⟩⟩⟩⟩⟩⟩⟩ <;>
    simp only [List.length_cons, List.length_nil, List.mem_cons, List.not_mem_nil,
      List.head?_cons, List.head?_nil, Bool.and_eq_true, decide_eq_true_eq]
  · simp
  · simp
  · simp
  · simp
  · simp
  · simp
  · constructor
    · intro h
      obtain ⟨⟨ha, hb⟩, ⟨⟨⟨⟨h1, h2⟩, h3⟩, h4⟩, h5⟩⟩ := h
      refine ⟨by simp, ?_, ?_⟩
      · intro c hc
        rcases hc with rfl | rfl | rfl | rfl | rfl | rfl | hc
        · exact char_isDigit_of_one_nine ha hb
        · exact h1
        · exact h2
        · exact h3
        · exact h4
        · exact h5
        · simp at hc
      · intro c hc
        injection hc with hc
        subst hc
        exact ⟨ha, hb⟩
    · rintro ⟨-, hdig, hhead⟩
      obtain ⟨ha, hb⟩ := hhead c0 rfl
      exact ⟨⟨ha, hb⟩, ⟨⟨⟨⟨hdig c1 (by simp), hdig c2 (by simp)⟩, hdig c3 (by simp)⟩,
        hdig c4 (by simp)⟩, hdig c5 (by simp)⟩⟩
  · constructor
    · intro h
      exact absurd h (by decide)
    · rintro ⟨h, -⟩
      exact absurd h (by omega)

/-- C6.  Forward-geocode gating: the forward-geocode call site is reached
exactly when the coordinate pair is not fully truthy (in particular, when
both are present no call is issued and `Used_Fallback` is `false`), and
`Used_Fallback` is `true` exactly when the call was issued and the
provider call succeeded (`ok = true`). -/
theorem forward_gating_used_fallback (row : Row) (p : Provider)
    (fwd : ForwardAdapter) (rev : ReverseAdapter) (key : String) :
    (enrichP row p fwd rev key).calledForward = !(row.lat.truthy && row.lon.truthy) ∧
    (enrichP row p fwd rev key).Used_Fallback
      = (!(row.lat.truthy && row.lon.truthy) && (fwd p (pyStrip row.address) key).ok) := by
  unfold enrichP
  by_cases h1 : (row.lat.truthy && row.lon.truthy) = true
  · simp [h1, finalize]
  · simp only [Bool.not_eq_true] at h1
    simp [h1, finalize]

/-- C10.  Falsy coordinates are treated as absent: if either input
coordinate is falsy (`None`, `0`/`0.0`, or `""`), the forward-geocode call
site is reached and the whole resolution behaves exactly as if both
coordinates were absent (both are reassigned from the call's result);
and in the static-default step the table's latitude/longitude are adopted
exactly when the current value is falsy. -/
theorem falsy_coords_treated_absent (row : Row) (p : Provider)
    (fwd : ForwardAdapter) (rev : ReverseAdapter) (key : String)
    (h : row.lat.truthy = false ∨ row.lon.truthy = false) :
    (enrichP row p fwd rev key).calledForward = true ∧
    enrichP row p fwd rev key
      = enrichP { row with lat := PyVal.vnone, lon := PyVal.vnone } p fwd rev key ∧
    (∀ city state pin lat lon ref, DEFAULT_CITY_DATA city = some ref →
      (lat.truthy = true → (apply_fallbacks city state pin lat lon).lat = lat) ∧
      (lat.truthy = false →
        (apply_fallbacks city state pin lat lon).lat = PyVal.vnum ref.latitude) ∧
      (lon.truthy = true → (apply_fallbacks city state pin lat lon).lon = lon) ∧
      (lon.truthy = false →
        (apply_fallbacks city state pin lat lon).lon = PyVal.vnum ref.longitude)) := by
  have hc : (row.lat.truthy && row.lon.truthy) = false := by
    rcases h with h | h <;> simp [h]
  refine ⟨?_, ?_, ?_⟩
  · unfold enrichP
    simp [hc, finalize]
  · have hv : PyVal.vnone.truthy = false := rfl
    unfold enrichP
    simp [hc, hv]
  · intro city state pin lat lon ref href
    unfold apply_fallbacks
    rw [href]
    refine ⟨?_, ?_, ?_, ?_⟩ <;> intro ht <;> simp [ht]

/-- C10 witness: a record whose latitude is the legitimate value `0` (with
longitude present) is handled as if both coordinates were absent, and the
Delhi table latitude is adopted for a falsy latitude. -/
theorem falsy_coords_treated_absent_witness :
    (enrichP ⟨"a", "", "", "", PyVal.vnum 0, PyVal.vnum 5⟩ Provider.google okFwd
        failRev "k").calledForward = true ∧
    (apply_fallbacks "Delhi" "" "" (PyVal.vnum 0) PyVal.vnone).lat
      = PyVal.vnum (mkRat 286139 10000) :=
  ⟨(falsy_coords_treated_absent ⟨"a", "", "", "", PyVal.vnum 0, PyVal.vnum 5⟩
      Provider.google okFwd failRev "k" (Or.inl (by decide))).1,
   ((falsy_coords_treated_absent ⟨"a", "", "", "", PyVal.vnum 0, PyVal.vnum 5⟩
      Provider.google okFwd failRev "k" (Or.inl (by decide))).2.2
      "Delhi" "" "" (PyVal.vnum 0) PyVal.vnone
      ⟨"Delhi", "110001", mkRat 286139 10000, mkRat 772090 10000⟩ rfl).2.1 (by decide)⟩

lemma enrichP_is_finalize (row : Row) (p : Provider) (fwd : ForwardAdapter)
    (rev : ReverseAdapter) (key : String) :
    ∃ fb u n cf cr, enrichP row p fwd rev key = finalize fb u n cf cr := by
  unfold enrichP
  exact ⟨_, _, _, _, _, rfl⟩

lemma finalize_status (fb : FallbackOut) (u : Bool) (n : List String) (cf cr : Bool) :
    ((finalize fb u n cf cr).Status = "Success" ↔
      ((finalize fb u n cf cr).Latitude.truthy = true ∧
       (finalize fb u n cf cr).Longitude.truthy = true ∧
       (finalize fb u n cf cr).City ≠ "" ∧
       (finalize fb u n cf cr).State ≠ "" ∧
       (finalize fb u n cf cr).PostalCode ≠ "")) ∧
    ((finalize fb u n cf cr).Status = "Success" ∨
     (finalize fb u n cf cr).Status = "Failed") := by
  unfold finalize
  dsimp only
  split
  next h =>
    have hparts := h
    simp only [Bool.and_eq_true, bne_iff_ne, ne_eq] at hparts
    obtain ⟨⟨⟨⟨hla, hlo⟩, hc1⟩, hs1⟩, hp1⟩ := hparts
    exact ⟨⟨fun _ => ⟨hla, hlo, hc1, hs1, hp1⟩, fun _ => rfl⟩, Or.inl rfl⟩
  next h =>
    refine ⟨⟨fun hx => absurd hx (by decide), fun hparts => ?_⟩, Or.inr rfl⟩
    obtain ⟨hla, hlo, hc1, hs1, hp1⟩ := hparts
    exact absurd (by simp [hla, hlo, hc1, hs1, hp1]) h

/-- C2 (amended).  Status semantics as implemented: the output status is
`"Success"` iff all five resolved fields are truthy (non-empty strings,
non-falsy coordinates); otherwise it is `"Failed"` — the only two values
the resolver ever produces (there is no `"Incomplete"`, and no
exception-to-`Failed` conversion exists). -/
theorem status_success_iff_all_truthy (row : Row) (p : Provider)
    (fwd : ForwardAdapter) (rev : ReverseAdapter) (key : String) :
    ((enrichP row p fwd rev key).Status = "Success" ↔
      ((enrichP row p fwd rev key).Latitude.truthy = true ∧
       (enrichP row p fwd rev key).Longitude.truthy = true ∧
       (enrichP row p fwd rev key).City ≠ "" ∧
       (enrichP row p fwd rev key).State ≠ "" ∧
       (enrichP row p fwd rev key).PostalCode ≠ "")) ∧
    ((enrichP row p fwd rev key).Status = "Success" ∨
     (enrichP row p fwd rev key).Status = "Failed") := by
  obtain ⟨fb, u, n, cf, cr, he⟩ := enrichP_is_finalize row p fwd rev key
  rw [he]
  exact finalize_status fb u n cf cr

/-- C2 counterexample: for a record with every field empty and an
always-failing adapter no unrecoverable error occurs, some fields remain
empty, and the status is `"Failed"` — not the `"Incomplete"` the claim
requires for this case. -/
theorem status_failed_for_incomplete_counterexample :
    (enrichP ⟨"", "", "", "", PyVal.vnone, PyVal.vnone⟩ Provider.google failFwd
        failRev "k").Status = "Failed" ∧
    (enrichP ⟨"", "", "", "", PyVal.vnone, PyVal.vnone⟩ Provider.google failFwd
        failRev "k").City = "" := by
  constructor <;> rfl

/-- C2 witness: for the all-empty `Delhi` record with a failing adapter the
five resolved fields are all truthy, and the status is indeed
`"Success"`. -/
theorem status_success_iff_all_truthy_witness :
    (enrichP ⟨"", "Delhi", "", "", PyVal.vnone, PyVal.vnone⟩ Provider.google
        failFwd failRev "k").Status = "Success" :=
  (status_success_iff_all_truthy ⟨"", "Delhi", "", "", PyVal.vnone, PyVal.vnone⟩
    Provider.google failFwd failRev "k").1.mpr (by decide)

/-- C1 counterexample: a record with a present, valid latitude (`10`) but a
missing longitude loses its input latitude when the forward-geocode call
fails — the output latitude is `None`, not the input value, contradicting
the claimed precedence invariant. -/
theorem enrich_overwrites_present_latitude_counterexample :
    (PyVal.vnum 10).truthy = true ∧
    (enrichP ⟨"", "", "", "", PyVal.vnum 10, PyVal.vnone⟩ Provider.google failFwd
        failRev "k").Latitude = PyVal.vnone := by
  constructor
  · decide
  · rfl

/-- C1 (amended).  Precedence holds for the string fields and for a fully
present coordinate pair: an input city/state/postal code that passes its
validity check is returned unchanged, and the input coordinates are
returned unchanged when BOTH are truthy.  (When either coordinate is falsy
the pair is reassigned from the forward-geocode result, so a lone present
coordinate is not preserved.) -/
theorem enrich_precedence_amended (row : Row) (p : Provider)
    (fwd : ForwardAdapter) (rev : ReverseAdapter) (key : String) :
    (VALID_CITIES.contains (pyStrip row.city) = true →
      (enrichP row p fwd rev key).City = pyStrip row.city) ∧
    (VALID_STATES.contains (pyStrip row.state) = true →
      (enrichP row p fwd rev key).State = pyStrip row.state) ∧
    (is_valid_indian_pincode (pyStrip row.postal) = true →
      (enrichP row p fwd rev key).PostalCode = pyStrip row.postal) ∧
    (row.lat.truthy = true → row.lon.truthy = true →
      (enrichP row p fwd rev key).Latitude = row.lat ∧
      (enrichP row p fwd rev key).Longitude = row.lon) := by
  refine ⟨?_, ?_, ?_, ?_⟩
  · intro h
    have hmem : pyStrip row.city ∈ VALID_CITIES := by simpa using h
    unfold enrichP
    simp only [finalize]
    rw [apply_fallbacks_city]
    simp [apply_ite Prod.fst, apply_ite Prod.snd, reverse_fill, hmem]
  · intro h
    have hmem : pyStrip row.state ∈ VALID_STATES := by simpa using h
    have hne := valid_state_ne_empty h
    unfold enrichP
    simp only [finalize]
    simp [apply_ite Prod.fst, apply_ite Prod.snd, reverse_fill, hmem,
      apply_fallbacks_state_of_ne, hne]
  · intro h
    unfold enrichP
    simp only [finalize]
    simp [apply_ite Prod.fst, apply_ite Prod.snd, reverse_fill, h,
      apply_fallbacks_pin_of_valid]
  · intro hla hlo
    have h1 : (row.lat.truthy && row.lon.truthy) = true := by simp [hla, hlo]
    unfold enrichP
    constructor <;>
      simp [h1, finalize, apply_ite Prod.fst, apply_ite Prod.snd,
        apply_fallbacks_lat_of_truthy, apply_fallbacks_lon_of_truthy, hla, hlo]

/-- C1 witness: the spec's example — `City="Mumbai"`, `State="Maharashtra"`,
`Postal Code="400001"` with present coordinates and an adapter stubbed to
return different coordinates — yields all five input values unchanged. -/
theorem enrich_precedence_amended_witness :
    (enrichP ⟨"a", "Mumbai", "Maharashtra", "400001", PyVal.vnum 19, PyVal.vnum 72⟩
        Provider.google okFwd failRev "k").City = "Mumbai" ∧
    (enrichP ⟨"a", "Mumbai", "Maharashtra", "400001", PyVal.vnum 19, PyVal.vnum 72⟩
        Provider.google okFwd failRev "k").State = "Maharashtra" ∧
    (enrichP ⟨"a", "Mumbai", "Maharashtra", "400001", PyVal.vnum 19, PyVal.vnum 72⟩
        Provider.google okFwd failRev "k").PostalCode = "400001" ∧
    (enrichP ⟨"a", "Mumbai", "Maharashtra", "400001", PyVal.vnum 19, PyVal.vnum 72⟩
        Provider.google okFwd failRev "k").Latitude = PyVal.vnum 19 ∧
    (enrichP ⟨"a", "Mumbai", "Maharashtra", "400001", PyVal.vnum 19, PyVal.vnum 72⟩
        Provider.google okFwd failRev "k").Longitude = PyVal.vnum 72 :=
  ⟨(enrich_precedence_amended ⟨"a", "Mumbai", "Maharashtra", "400001", PyVal.vnum 19,
      PyVal.vnum 72⟩ Provider.google okFwd failRev "k").1 (by decide),
   (enrich_precedence_amended ⟨"a", "Mumbai", "Maharashtra", "400001", PyVal.vnum 19,
      PyVal.vnum 72⟩ Provider.google okFwd failRev "k").2.1 (by decide),
   (enrich_precedence_amended ⟨"a", "Mumbai", "Maharashtra", "400001", PyVal.vnum 19,
      PyVal.vnum 72⟩ Provider.google okFwd failRev "k").2.2.1 (by decide),
   ((enrich_precedence_amended ⟨"a", "Mumbai", "Maharashtra", "400001", PyVal.vnum 19,
      PyVal.vnum 72⟩ Provider.google okFwd failRev "k").2.2.2 (by decide) (by decide)).1,
   ((enrich_precedence_amended ⟨"a", "Mumbai", "Maharashtra", "400001", PyVal.vnum 19,
      PyVal.vnum 72⟩ Provider.google okFwd failRev "k").2.2.2 (by decide) (by decide)).2⟩

/-- C3 counterexample: with valid input state and postal code but an
unknown city, a reverse-geocoded city `"Atlantis"` that is NOT in the known
city set is adopted anyway — the source adopts any non-empty reverse
city/state without re-validating it against the known sets. -/
theorem reverse_city_unvalidated_counterexample :
    (enrichP ⟨"", "", "Maharashtra", "400001", PyVal.vnum 1, PyVal.vnum 1⟩
        Provider.google failFwd
        (fun _ _ _ _ => ⟨some "Atlantis", Option.none, Option.none⟩) "k").City
      = "Atlantis" ∧
    VALID_CITIES.contains "Atlantis" = false := by
  constructor
  · rfl
  · decide

/-- C3 (amended).  Reverse-fill adoption rules as implemented: a field is
touched only if its input failed its validity check; a reverse postal code
is adopted only if it itself passes `is_valid_indian_pincode`; but a
reverse city or state is adopted whenever it is non-empty, with NO
re-validation against the known city/state sets. -/
theorem reverse_fill_adoption_rules (city_ok state_ok pin_ok : Bool)
    (city state pin : String) (r : ReverseResult) :
    ((city_ok = true →
        (reverse_fill city_ok state_ok pin_ok city state pin r).1 = city) ∧
     (city_ok = false → ∀ v, r.city = some v → v ≠ "" →
        (reverse_fill city_ok state_ok pin_ok city state pin r).1 = v) ∧
     (optTruthy r.city = false →
        (reverse_fill city_ok state_ok pin_ok city state pin r).1 = city)) ∧
    ((state_ok = true →
        (reverse_fill city_ok state_ok pin_ok city state pin r).2.1 = state) ∧
     (state_ok = false → ∀ v, r.state = some v → v ≠ "" →
        (reverse_fill city_ok state_ok pin_ok city state pin r).2.1 = v) ∧
     (optTruthy r.state = false →
        (reverse_fill city_ok state_ok pin_ok city state pin r).2.1 = state)) ∧
    ((pin_ok = true →
        (reverse_fill city_ok state_ok pin_ok city state pin r).2.2.1 = pin) ∧
     (is_valid_indian_pincode (py_str r.pin) = false →
        (reverse_fill city_ok state_ok pin_ok city state pin r).2.2.1 = pin) ∧
     (pin_ok = false → ∀ v, r.pin = some v → is_valid_indian_pincode v = true →
        (reverse_fill city_ok state_ok pin_ok city state pin r).2.2.1 = v)) := by
  refine ⟨⟨?_, ?_, ?_⟩, ⟨?_, ?_, ?_⟩, ⟨?_, ?_, ?_⟩⟩
  · intro h
    simp [reverse_fill, h]
  · intro h v hv hne
    simp [reverse_fill, h, hv, optTruthy, hne]
  · intro h
    simp [reverse_fill, h]
  · intro h
    simp [reverse_fill, h]
  · intro h v hv hne
    simp [reverse_fill, h, hv, optTruthy, hne]
  · intro h
    simp [reverse_fill, h]
  · intro h
    simp [reverse_fill, h]
  · intro h
    simp [reverse_fill, h]
  · intro h v hv hval
    simp [reverse_fill, h, hv, py_str, hval]

/-- C3 witness: with all three checks failed, a reverse result carrying an
unknown city, an unknown state and a valid pin is adopted verbatim. -/
theorem reverse_fill_adoption_rules_witness :
    (reverse_fill false false false "" "" "" ⟨some "X", some "Y", some "560001"⟩).1 = "X" ∧
    (reverse_fill false false false "" "" "" ⟨some "X", some "Y", some "560001"⟩).2.1 = "Y" ∧
    (reverse_fill false false false "" "" "" ⟨some "X", some "Y", some "560001"⟩).2.2.1 = "560001" :=
  ⟨(reverse_fill_adoption_rules false false false "" "" ""
      ⟨some "X", some "Y", some "560001"⟩).1.2.1 rfl "X" rfl (by decide),
   (reverse_fill_adoption_rules false false false "" "" ""
      ⟨some "X", some "Y", some "560001"⟩).2.1.2.1 rfl "Y" rfl (by decide),
   (reverse_fill_adoption_rules false false false "" "" ""
      ⟨some "X", some "Y", some "560001"⟩).2.2.2.2 rfl "560001" rfl (by decide)⟩

/-- C7 counterexample: for a record whose city `"Delhi"` is a table key but
whose state `"NotAState"` is non-empty and invalid, the static-default step
does NOT replace the invalid state with the table's value (the source fills
the state only when it is empty); also the output has no
`usedStaticDefault` field. -/
theorem fallback_keeps_invalid_state_counterexample :
    (DEFAULT_CITY_DATA "Delhi").isSome = true ∧
    VALID_STATES.contains "NotAState" = false ∧
    (enrichP ⟨"", "Delhi", "NotAState", "110001", PyVal.vnum 1, PyVal.vnum 1⟩
        Provider.google failFwd failRev "k").State = "NotAState" := by
  refine ⟨by decide, by decide, ?_⟩
  rfl

/-- C7 (amended).  Static default fill as implemented: when the
(post-reverse) city is a table key, the state is filled only when EMPTY
(an invalid non-empty state is kept), the postal code when invalid, the
coordinates when falsy; and the spec's Delhi example yields the table's
state, postal code and coordinates with the four default notes (there is
no `usedStaticDefault` flag in the output — the fills are visible only in
the correction notes). -/
theorem apply_fallbacks_fill_rules :
    (∀ city state pin lat lon ref, DEFAULT_CITY_DATA city = some ref →
      (apply_fallbacks city state pin lat lon).city = city ∧
      (apply_fallbacks city state pin lat lon).state
        = (if state = "" then ref.state else state) ∧
      (apply_fallbacks city state pin lat lon).pin
        = (if is_valid_indian_pincode pin = true then pin else ref.pincode) ∧
      (apply_fallbacks city state pin lat lon).lat
        = (if lat.truthy = true then lat else PyVal.vnum ref.latitude) ∧
      (apply_fallbacks city state pin lat lon).lon
        = (if lon.truthy = true then lon else PyVal.vnum ref.longitude)) ∧
    enrichP ⟨"", "Delhi", "", "", PyVal.vnone, PyVal.vnone⟩ Provider.google failFwd
        failRev "k"
      = { Latitude := PyVal.vnum (mkRat 286139 10000),
          Longitude := PyVal.vnum (mkRat 772090 10000),
          City := "Delhi", State := "Delhi", PostalCode := "110001",
          Used_Fallback := false,
          notesList := ["Default State", "Default PIN", "Default Lat", "Default Lon"],
          Correction_Notes := "Default State, Default PIN, Default Lat, Default Lon",
          Status := "Success", calledForward := true, calledReverse := false } := by
  constructor
  · intro city state pin lat lon ref href
    unfold apply_fallbacks
    rw [href]
    refine ⟨rfl, ?_, ?_, ?_, ?_⟩
    · by_cases h : state = "" <;> simp [h]
    · by_cases h : is_valid_indian_pincode pin = true <;> simp [h]
    · by_cases h : lat.truthy = true <;> simp [h]
    · by_cases h : lon.truthy = true <;> simp [h]
  · rfl

/-- C7 witness: the fill rules applied to the Delhi table entry with empty
state/pin and falsy coordinates produce the table values. -/
theorem apply_fallbacks_fill_rules_witness :
    (apply_fallbacks "Delhi" "" "" PyVal.vnone PyVal.vnone).state = "Delhi" ∧
    (apply_fallbacks "Delhi" "" "" PyVal.vnone PyVal.vnone).pin = "110001" ∧
    (apply_fallbacks "Delhi" "" "" PyVal.vnone PyVal.vnone).lat
      = PyVal.vnum (mkRat 286139 10000) :=
  ⟨(apply_fallbacks_fill_rules.1 "Delhi" "" "" PyVal.vnone PyVal.vnone
      ⟨"Delhi", "110001", mkRat 286139 10000, mkRat 772090 10000⟩ rfl).2.1,
   (apply_fallbacks_fill_rules.1 "Delhi" "" "" PyVal.vnone PyVal.vnone
      ⟨"Delhi", "110001", mkRat 286139 10000, mkRat 772090 10000⟩ rfl).2.2.1,
   (apply_fallbacks_fill_rules.1 "Delhi" "" "" PyVal.vnone PyVal.vnone
      ⟨"Delhi", "110001", mkRat 286139 10000, mkRat 772090 10000⟩ rfl).2.2.2.1⟩

lemma sublist_if3 {α : Type} (a b c : Bool) (x y z : α) :
    ((if a = true then [x] else []) ++ (if b = true then [y] else []) ++
      (if c = true then [z] else [])).Sublist [x, y, z] := by
  cases a <;> cases b <;> cases c <;> simp

lemma sublist_if4 {α : Type} (a b c d : Bool) (w x y z : α) :
    ((if a = true then [w] else []) ++ (if b = true then [x] else []) ++
      (if c = true then [y] else []) ++ (if d = true then [z] else [])).Sublist
      [w, x, y, z] := by
  cases a <;> cases b <;> cases c <;> cases d <;> simp

lemma apply_fallbacks_notes_sublist (city state pin : String) (lat lon : PyVal) :
    (apply_fallbacks city state pin lat lon).notes.Sublist
      ["Default State", "Default PIN", "Default Lat", "Default Lon"] := by
  unfold apply_fallbacks
  cases DEFAULT_CITY_DATA city
  · simp
  · exact sublist_if4 _ _ _ _ _ _ _ _

lemma enrichP_notes_decomp (row : Row) (p : Provider) (fwd : ForwardAdapter)
    (rev : ReverseAdapter) (key : String) :
    ∃ u rvn fbn,
      (enrichP row p fwd rev key).Used_Fallback = u ∧
      (enrichP row p fwd rev key).notesList
        = (if u = true then ["Lat/Lon enriched"] else []) ++ rvn ++ fbn ∧
      rvn.Sublist ["City from reverse", "State from reverse", "PIN from reverse"] ∧
      fbn.Sublist ["Default State", "Default PIN", "Default Lat", "Default Lon"] := by
  unfold enrichP
  by_cases h1 : (row.lat.truthy && row.lon.truthy) = true
  · simp only [h1, if_true, finalize]
    refine ⟨false, _, _, rfl, rfl, ?_, ?_⟩
    · split
      · exact sublist_if3 _ _ _ _ _ _
      · simp
    · exact apply_fallbacks_notes_sublist _ _ _ _ _
  · simp only [Bool.not_eq_true] at h1
    simp only [h1, Bool.false_eq_true, if_false, finalize]
    refine ⟨_, _, _, rfl, rfl, ?_, ?_⟩
    · split
      · exact sublist_if3 _ _ _ _ _ _
      · simp
    · exact apply_fallbacks_notes_sublist _ _ _ _ _

lemma apply_fallbacks_notes_eq (city state pin : String) (lat lon : PyVal) :
    (apply_fallbacks city state pin lat lon).notes =
      (if ((DEFAULT_CITY_DATA city).isSome && state == "") = true
        then ["Default State"] else []) ++
      (if ((DEFAULT_CITY_DATA city).isSome && !is_valid_indian_pincode pin) = true
        then ["Default PIN"] else []) ++
      (if ((DEFAULT_CITY_DATA city).isSome && !lat.truthy) = true
        then ["Default Lat"] else []) ++
      (if ((DEFAULT_CITY_DATA city).isSome && !lon.truthy) = true
        then ["Default Lon"] else []) := by
  unfold apply_fallbacks
  cases DEFAULT_CITY_DATA city <;> simp

/-- C8 (amended).  Correction-notes accounting as implemented: the notes
list equals `expected_notes` — EXACTLY one tag per applied resolution
action, in step order: the single tag `"Lat/Lon enriched"` when the
coordinate pair was reassigned from a successful forward geocode (one note
for BOTH coordinate fields, so the count can be one less than the number of
changed fields), one tag per reverse-fill adoption, one tag per
static-default fill; a step that adopts nothing contributes nothing.  The
final two conjuncts show an adoption whose value coincidentally equals the
input still contributes its note: a reverse city equal to the (unknown)
input city leaves every output field equal to its input yet yields the
one-element notes list `["City from reverse"]`. -/
theorem notes_shape_per_action (row : Row) (p : Provider) (fwd : ForwardAdapter)
    (rev : ReverseAdapter) (key : String) :
    (enrichP row p fwd rev key).notesList = expected_notes row p fwd rev key ∧
    (enrichP ⟨"", "Atlantis", "Maharashtra", "400001", PyVal.vnum 1, PyVal.vnum 1⟩
        Provider.google failFwd
        (fun _ _ _ _ => ⟨some "Atlantis", Option.none, Option.none⟩) "k")
      = { Latitude := PyVal.vnum 1, Longitude := PyVal.vnum 1, City := "Atlantis",
          State := "Maharashtra", PostalCode := "400001", Used_Fallback := false,
          notesList := ["City from reverse"],
          Correction_Notes := "City from reverse", Status := "Success",
          calledForward := false, calledReverse := true } ∧
    (expected_notes ⟨"", "Atlantis", "Maharashtra", "400001", PyVal.vnum 1, PyVal.vnum 1⟩
        Provider.google failFwd
        (fun _ _ _ _ => ⟨some "Atlantis", Option.none, Option.none⟩) "k").length = 1 := by
  refine ⟨?_, by decide, by decide⟩
  unfold enrichP expected_notes
  by_cases h1 : (row.lat.truthy && row.lon.truthy) = true
  · simp [h1, finalize, reverse_fill, apply_fallbacks_notes_eq]
    split <;> rename_i h3 <;> simp [h3]
  · simp only [Bool.not_eq_true] at h1
    simp [h1, finalize, reverse_fill, apply_fallbacks_notes_eq]
    split <;> rename_i h3 <;> simp [h3]

/-- C8 counterexample: for an all-empty record with a successful forward
geocode and failing reverse geocode, both output coordinates differ from
the input while city/state/postal are unchanged — two changed fields —
yet the correction-notes list has length one (the single combined
`"Lat/Lon enriched"` note). -/
theorem notes_single_note_two_coords_counterexample :
    (enrichP ⟨"X", "", "", "", PyVal.vnone, PyVal.vnone⟩ Provider.google okFwd
        failRev "k").notesList.length = 1 ∧
    (enrichP ⟨"X", "", "", "", PyVal.vnone, PyVal.vnone⟩ Provider.google okFwd
        failRev "k").Latitude ≠ PyVal.vnone ∧
    (enrichP ⟨"X", "", "", "", PyVal.vnone, PyVal.vnone⟩ Provider.google okFwd
        failRev "k").Longitude ≠ PyVal.vnone ∧
    (enrichP ⟨"X", "", "", "", PyVal.vnone, PyVal.vnone⟩ Provider.google okFwd
        failRev "k").City = "" ∧
    (enrichP ⟨"X", "", "", "", PyVal.vnone, PyVal.vnone⟩ Provider.google okFwd
        failRev "k").State = "" ∧
    (enrichP ⟨"X", "", "", "", PyVal.vnone, PyVal.vnone⟩ Provider.google okFwd
        failRev "k").PostalCode = "" := by
  refine ⟨rfl, ?_, ?_, rfl, rfl, rfl⟩ <;> decide

/-- C8 witness: the exact notes formula evaluated on an all-empty record
with a successful forward geocode gives the single combined coordinate
note. -/
theorem notes_shape_per_action_witness :
    (enrichP ⟨"X", "", "", "", PyVal.vnone, PyVal.vnone⟩ Provider.google okFwd
        failRev "k").notesList
      = expected_notes ⟨"X", "", "", "", PyVal.vnone, PyVal.vnone⟩ Provider.google
          okFwd failRev "k" ∧
    expected_notes ⟨"X", "", "", "", PyVal.vnone, PyVal.vnone⟩ Provider.google
        okFwd failRev "k" = ["Lat/Lon enriched"] :=
  ⟨(notes_shape_per_action ⟨"X", "", "", "", PyVal.vnone, PyVal.vnone⟩
      Provider.google okFwd failRev "k").1, by decide⟩

lemma batchWrite_length (p : Provider) (fwd : ForwardAdapter) (rev : ReverseAdapter)
    (key : String) (rows : List Row) (res : List (Option EnrichOut)) (idx : Nat) :
    (batchWrite p fwd rev key rows res idx).length = res.length := by
  unfold batchWrite
  cases rows[idx]? <;> simp

lemma runBatch_foldl {providerName : String} {p : Provider}
    (rows : List Row) (fwd : ForwardAdapter) (rev : ReverseAdapter) (key : String)
    (hp : providerOf providerName = some p) (order : List Nat) :
    runBatch rows providerName fwd rev key order
      = Except.ok (order.foldl (batchWrite p fwd rev key rows)
          (List.replicate rows.length Option.none)) := by
  unfold runBatch
  generalize List.replicate rows.length Option.none = init
  induction order generalizing init with
  | nil => rfl
  | cons a t ih =>
      rw [List.foldlM_cons, List.foldl_cons]
      cases hr : rows[a]? with
      | none =>
          have hbw : batchWrite p fwd rev key rows init a = init := by
            unfold batchWrite
            rw [hr]
          rw [hbw]
          exact ih init
      | some row =>
          have hbw : batchWrite p fwd rev key rows init a
              = init.set a (some (enrichP row p fwd rev key)) := by
            unfold batchWrite
            rw [hr]
          rw [hbw]
          dsimp only
          rw [enrichE_recognized row fwd rev key hp]
          exact ih (init.set a (some (enrichP row p fwd rev key)))

lemma foldl_batchWrite_length (p : Provider) (fwd : ForwardAdapter)
    (rev : ReverseAdapter) (key : String) (rows : List Row) :
    ∀ (l : List Nat) (res : List (Option EnrichOut)),
      (l.foldl (batchWrite p fwd rev key rows) res).length = res.length := by
  intro l
  induction l with
  | nil => intro res; rfl
  | cons a t ih =>
      intro res
      rw [List.foldl_cons, ih, batchWrite_length]

lemma foldl_batchWrite_getElem? (p : Provider) (fwd : ForwardAdapter)
    (rev : ReverseAdapter) (key : String) (rows : List Row) :
    ∀ (l : List Nat) (res : List (Option EnrichOut)),
      res.length = rows.length → ∀ i : Nat,
      (l.foldl (batchWrite p fwd rev key rows) res)[i]?
        = if i ∈ l ∧ i < rows.length
          then (rows[i]?).map (fun row => some (enrichP row p fwd rev key))
          else res[i]? := by
  intro l
  induction l with
  | nil =>
      intro res hres i
      rw [if_neg]
      · rfl
      · rintro ⟨hm, -⟩
        exact List.not_mem_nil _ hm
  | cons a t ih =>
      intro res hres i
      rw [List.foldl_cons]
      have hres' : (batchWrite p fwd rev key rows res a).length = rows.length := by
        rw [batchWrite_length]; exact hres
      rw [ih (batchWrite p fwd rev key rows res a) hres' i]
      by_cases hmem : i ∈ t ∧ i < rows.length
      · rw [if_pos hmem, if_pos ⟨List.mem_cons_of_mem _ hmem.1, hmem.2⟩]
      · rw [if_neg hmem]
        by_cases hia : i = a ∧ i < rows.length
        · obtain ⟨rfl, hlt⟩ := hia
          rw [if_pos ⟨List.mem_cons_self _ _, hlt⟩]
          unfold batchWrite
          rw [List.getElem?_eq_getElem hlt]
          dsimp only [Option.map_some']
          rw [List.getElem?_set_self]
          rw [hres]
          exact hlt
        · rw [if_neg]
          · unfold batchWrite
            cases hr : rows[a]? with
            | none => rfl
            | some row =>
                have hne : i ≠ a := by
                  rintro rfl
                  have halt : i < rows.length := by
                    by_contra hgt
                    rw [List.getElem?_eq_none (Nat.le_of_not_lt hgt)] at hr
                    cases hr
                  exact hia ⟨rfl, halt⟩
                dsimp only
                rw [List.getElem?_set_ne (Ne.symm hne)]
          · rintro ⟨hm, hlt⟩
            rcases List.mem_cons.1 hm with rfl | hm'
            · exact hia ⟨rfl, hlt⟩
            · exact hmem ⟨hm', hlt⟩

lemma runBatch_eq_map {providerName : String} {p : Provider}
    (rows : List Row) (fwd : ForwardAdapter) (rev : ReverseAdapter) (key : String)
    (order : List Nat) (hp : providerOf providerName = some p)
    (ho : order.Perm (List.range rows.length)) :
    runBatch rows providerName fwd rev key order
      = Except.ok (rows.map (fun row => some (enrichP row p fwd rev key))) := by
  rw [runBatch_foldl rows fwd rev key hp order]
  congr 1
  apply List.ext_getElem?
  intro i
  rw [foldl_batchWrite_getElem? p fwd rev key rows order
    (List.replicate rows.length Option.none) (List.length_replicate _ _) i]
  rw [List.getElem?_map]
  by_cases hi : i < rows.length
  · rw [if_pos ⟨ho.mem_iff.2 (List.mem_range.2 hi), hi⟩]
  · rw [if_neg (fun h => hi h.2)]
    rw [List.getElem?_eq_none (Nat.le_of_not_lt hi),
      List.getElem?_eq_none (by rw [List.length_replicate]; exact Nat.le_of_not_lt hi)]
    rfl

/-- C5.  Batch order preservation: for a recognized provider and any
completion order (any permutation of the row indices), the batch loop
produces one result per input row, and the result at each position is the
enrichment of the input row at that same position. -/
theorem batch_order_preserved (rows : List Row) (providerName : String)
    (p : Provider) (fwd : ForwardAdapter) (rev : ReverseAdapter) (key : String)
    (order : List Nat) (hp : providerOf providerName = some p)
    (ho : order.Perm (List.range rows.length)) :
    runBatch rows providerName fwd rev key order
      = Except.ok (rows.map (fun row => some (enrichP row p fwd rev key))) :=
  runBatch_eq_map rows fwd rev key order hp ho

/-- C5 witness: a two-row batch processed in reversed completion order
still yields the per-position enrichments. -/
theorem batch_order_preserved_witness :
    runBatch [⟨"a", "", "", "", PyVal.vnone, PyVal.vnone⟩,
              ⟨"b", "Delhi", "", "", PyVal.vnone, PyVal.vnone⟩]
        "OpenCage" okFwd failRev "k" [1, 0]
      = Except.ok ([⟨"a", "", "", "", PyVal.vnone, PyVal.vnone⟩,
                    ⟨"b", "Delhi", "", "", PyVal.vnone, PyVal.vnone⟩].map
          (fun row => some (enrichP row Provider.opencage okFwd failRev "k"))) :=
  batch_order_preserved _ _ Provider.opencage _ _ _ _ rfl (by decide)

/-- C4 counterexample: the batch loop has no per-record try/except — an
exception raised while resolving a record (here the `UnboundLocalError`
raised by `enrich` for a provider name outside the dispatch chain, with
missing coordinates) propagates out of `future.result()` and terminates
the batch with an error instead of producing a `Failed` record. -/
theorem batch_exception_aborts_counterexample :
    runBatch [⟨"somewhere", "", "", "", PyVal.vnone, PyVal.vnone⟩]
        "Nominatim" failFwd failRev "k" [0]
      = Except.error
          "UnboundLocalError: local variable ok referenced before assignment" := by
  rfl

/-- C4 (amended).  Per-record exceptions are NOT caught at the batch
boundary (they abort the whole batch, see the counterexample); however,
for the five recognized providers the resolver itself raises nothing, so
every batch over a recognized provider completes with exactly one
(non-null) output row per input row. -/
theorem batch_completes_with_known_provider (rows : List Row)
    (providerName : String) (p : Provider) (fwd : ForwardAdapter)
    (rev : ReverseAdapter) (key : String) (order : List Nat)
    (hp : providerOf providerName = some p)
    (ho : order.Perm (List.range rows.length)) :
    ∃ outs, runBatch rows providerName fwd rev key order = Except.ok outs ∧
      outs.length = rows.length ∧ ∀ o ∈ outs, o.isSome = true := by
  refine ⟨_, runBatch_eq_map rows fwd rev key order hp ho, ?_, ?_⟩
  · rw [List.length_map]
  · intro o hmem
    rw [List.mem_map] at hmem
    obtain ⟨row, -, rfl⟩ := hmem
    rfl

/-- C4 witness: a one-row batch over the recognized provider `"Mapbox"`
completes with one non-null output row. -/
theorem batch_completes_with_known_provider_witness :
    ∃ outs, runBatch [⟨"a", "", "", "", PyVal.vnone, PyVal.vnone⟩]
        "Mapbox" failFwd failRev "k" [0] = Except.ok outs ∧
      outs.length = 1 ∧ ∀ o ∈ outs, o.isSome = true :=
  batch_completes_with_known_provider _ _ Provider.mapbox _ _ _ _ rfl (by decide)
